import Mathlib

/-
Verification of the mcp-opsbeacon-server tool-dispatch layer.

The development shallowly embeds src/mcp_opsbeacon_server/server.py:
  - a JSON value model (Python dict/list/str/int/bool/None payloads);
  - the static tool registry returned by handle_list_tools;
  - the OpsbeaconClient request construction and response normalization
    (list_commands, list_connections, get_execution_logs, execute_operation,
    close, _get_session);
  - the handle_call_tool dispatcher, modelled as a pure function from the
    downstream transport (a function from requests to HTTP responses), a JSON
    parse oracle (modelling json.loads), the current date (as an integer day
    index, modelling datetime.now() at day granularity), the tool name and
    the argument mapping, to the produced content items together with the
    list of downstream requests issued.
Machine dates are modelled as integers counting days — proleptic Gregorian
ordinals in the sense of Python date.toordinal(), whose smallest
representable value (datetime.min, year 1) is ordinal 1 — so subtracting a
timedelta of n days is integer subtraction, and a subtraction whose result
falls below ordinal 1 models the OverflowError that datetime arithmetic
raises there (dateMinusDays below); the YYYYMMDD strftime rendering of a
day index is not modelled. Python exceptions raised and caught inside a
dispatcher branch are modelled with Except; exception message texts that no
observable behaviour depends on are approximated.
-/

namespace Opsbeacon

/-- JSON-like values, modelling the Python payloads moved around by the
server: strings, integers, booleans, None, lists and dicts. -/
inductive Json where
  | str : String → Json
  | num : Int → Json
  | bool : Bool → Json
  | null : Json
  | arr : List Json → Json
  | obj : List (String × Json) → Json
deriving Repr

/-- Python truthiness of a value, as used by `if not connection` and
`if not arguments` in handle_call_tool. -/
def Json.truthy : Json → Bool
  | .str s => !s.isEmpty
  | .num n => n != 0
  | .bool b => b
  | .null => false
  | .arr l => !l.isEmpty
  | .obj l => !l.isEmpty

/-- Dictionary lookup, modelling `d.get(k)` / `k in d` on a Python dict. -/
def getKey (fields : List (String × Json)) (k : String) : Option Json :=
  (fields.find? (fun p => p.1 == k)).map (fun p => p.2)

/-- Lookup of a key inside a JSON object; `none` on other values. -/
def Json.getField : Json → String → Option Json
  | .obj fields, k => getKey fields k
  | _, _ => none

/-- Truthiness of `d.get(k)` where a missing key gives Python None. -/
def optTruthy : Option Json → Bool
  | none => false
  | some j => j.truthy

mutual

/-- Rendering of a value, modelling Python str() applied to a decoded JSON
payload when handle_call_tool builds the text content (str of a dict or
list). The exact quoting style is immaterial to every claim below. -/
def Json.render : Json → String
  | .str s => "\x27" ++ s ++ "\x27"
  | .num n => toString n
  | .bool b => if b then "True" else "False"
  | .null => "None"
  | .arr l => "[" ++ Json.renderSeq l ++ "]"
  | .obj l => "\x7b" ++ Json.renderFields l ++ "\x7d"

/-- Comma-joined rendering of list elements. -/
def Json.renderSeq : List Json → String
  | [] => ""
  | [j] => Json.render j
  | j :: rest => Json.render j ++ ", " ++ Json.renderSeq rest

/-- Comma-joined rendering of dict entries. -/
def Json.renderFields : List (String × Json) → String
  | [] => ""
  | [(k, j)] => "\x27" ++ k ++ "\x27: " ++ Json.render j
  | (k, j) :: rest => "\x27" ++ k ++ "\x27: " ++ Json.render j ++ ", " ++ Json.renderFields rest

end

/-- Python str() of a single value interpolated into an f-string: a string
renders as itself, everything else as its display form. -/
def pyToStr : Json → String
  | .str s => s
  | j => j.render

/-- Lowercasing of a string, modelling Python str.lower on the ASCII
inputs relevant here. -/
def pyLower (s : String) : String :=
  String.mk (s.data.map Char.toLower)

/-- Whether `pat` occurs at the head of `s` (character lists). -/
def listLeads : List Char → List Char → Bool
  | [], _ => true
  | _ :: _, [] => false
  | p :: ps, c :: cs => p == c && listLeads ps cs

/-- Whether `pat` occurs as a contiguous run inside `s` (character lists). -/
def listHasSub (pat : List Char) : List Char → Bool
  | [] => pat.isEmpty
  | c :: cs => listLeads pat (c :: cs) || listHasSub pat cs

/-- Substring containment, modelling the Python expression `pat in s`. -/
def strHas (s pat : String) : Bool :=
  listHasSub pat.data s.data

/-- A tool definition as produced by handle_list_tools: name, description
and a JSON-Schema-subset input schema (kept as a JSON value, transcribed
from the Python dict literals). -/
structure Tool where
  name : String
  description : String
  inputSchema : Json

/-- The static tool registry, transcribed from handle_list_tools in
server.py (lines 190 to 271). -/
def handle_list_tools : List Tool :=
  [ { name := "list_commands",
      description := "List all available Opsbeacon commands",
      inputSchema := .obj
        [ ("type", .str "object"),
          ("properties", .obj []) ] },
    { name := "list_connections",
      description := "List all available Opsbeacon connections",
      inputSchema := .obj
        [ ("type", .str "object"),
          ("properties", .obj []) ] },
    { name := "execute",
      description := "Execute an Opsbeacon operation",
      inputSchema := .obj
        [ ("type", .str "object"),
          ("properties", .obj
            [ ("connection", .obj
                [ ("type", .str "string"),
                  ("description", .str "Name of the connection to use") ]),
              ("command", .obj
                [ ("type", .str "string"),
                  ("description", .str "Name of the command to execute") ]),
              ("arguments", .obj
                [ ("type", .str "array"),
                  ("items", .obj
                    [ ("type", .str "object"),
                      ("properties", .obj
                        [ ("name", .obj
                            [ ("type", .str "string"),
                              ("description", .str "Argument name") ]),
                          ("value", .obj
                            [ ("type", .str "string"),
                              ("description", .str "Argument value") ]) ]),
                      ("required", .arr [.str "name", .str "value"]) ]),
                  ("description", .str "Optional list of arguments") ]) ]),
          ("required", .arr [.str "connection", .str "command"]) ] },
    { name := "executionlogs",
      description := "Get execution logs for a specific date range",
      inputSchema := .obj
        [ ("type", .str "object"),
          ("properties", .obj
            [ ("interval", .obj
                [ ("type", .str "string"),
                  ("description", .str
                    "Time interval (e.g., \x27last week\x27, \x27last month\x27, \x27last 3 days\x27)") ]),
              ("page", .obj
                [ ("type", .str "integer"),
                  ("description", .str "Page number"),
                  ("default", .num 1) ]),
              ("limit", .obj
                [ ("type", .str "integer"),
                  ("description", .str "Number of logs per page"),
                  ("default", .num 10) ]) ]),
          ("required", .arr [.str "interval"]) ] } ]

/-- Decimal value of the digit characters of a string taken in order,
modelling `int("".join(filter(str.isdigit, interval)))` together with the
`except ValueError` fallback to 7 (server.py lines 351 to 355). int raises
ValueError both on the empty string (no digit present) and, on CPython
3.10.7 and later, when the digit string exceeds the integer-string
conversion limit of 4300 digits; both fall back to 7. -/
def digitsOrSeven (s : String) : Nat :=
  let ds := s.data.filter Char.isDigit
  if ds.isEmpty then 7
  else if 4300 < ds.length then 7
  else ds.foldl (fun acc c => acc * 10 + (c.toNat - 48)) 0

/-- Number of days subtracted from today to obtain the start date of an
executionlogs query, from the interval-parsing block of handle_call_tool
(server.py lines 344 to 357): the interval is lowercased, then matched by
substring containment against "last week" (7 days), "last month" (30 days),
then "last" together with "days" (the digit characters of the string), with
a default of 7 days for everything else. Total on all strings. -/
def resolveStartDelta (interval0 : String) : Nat :=
  let interval := pyLower interval0
  if strHas interval "last week" then 7
  else if strHas interval "last month" then 30
  else if strHas interval "last" && strHas interval "days" then digitsOrSeven interval
  else 7

/-- The timeframe resolver: dates are modelled as integer day indices, the
current day `today` is a parameter; the result is the (start, end) pair of
day indices with end = today and start = today minus the resolved delta
(server.py lines 342 to 361, before YYYYMMDD formatting). -/
def resolveTimeframe (today : Int) (interval : String) : Int × Int :=
  (today - (resolveStartDelta interval : Int), today)

/-- Models `today - timedelta(days=days)` on a datetime (server.py lines
347, 349, 353, 355, 357). The timedelta constructor raises OverflowError
when days exceeds 999999999; the subtraction raises OverflowError with the
message "date value out of range" when the result falls before
datetime.min, that is below proleptic ordinal 1. Neither is a ValueError,
so in the days branch both escape the `except ValueError` handler at line
354 and propagate to the branch-level handler at lines 380 to 382. -/
def dateMinusDays (today : Int) (days : Nat) : Except String Int :=
  if 999999999 < days then
    .error ("days=" ++ toString days ++ "; must have magnitude <= 999999999")
  else if today - (days : Int) < 1 then .error "date value out of range"
  else .ok (today - (days : Int))

/-- The start-date computation of the executionlogs branch with its
overflow behaviour: the branch-selected day count (resolveStartDelta, in
which the int ValueError fallback is already folded) subtracted from today,
or the OverflowError the subtraction raises. Every branch of the source
block performs the same `today - timedelta(days=d)` subtraction, so the
factoring through the selected day count is behaviour-preserving. -/
def resolveStartOrError (today : Int) (interval : String) : Except String Int :=
  dateMinusDays today (resolveStartDelta interval)

/-- A downstream HTTP request issued by OpsbeaconClient: the four routes of
the Opsbeacon API with the data each carries. getEventLogs carries the
query parameters of get_execution_logs, including the constant orderBy and
direction values (server.py lines 105 to 112); dates are day indices. -/
inductive Request where
  | getCommands : Request
  | getConnections : Request
  | getEventLogs (startDate endDate : Int) (page limit : Json)
      (orderBy direction : String) : Request
  | postExecute (commandLine : String) : Request
deriving Repr

/-- A downstream HTTP response: status code and raw body text. -/
structure HttpResponse where
  status : Nat
  body : String

/-- Models response.raise_for_status(): aiohttp raises for status codes of
400 and above; the failure propagates out of the client method. -/
def raise_for_status (r : HttpResponse) : Except String Unit :=
  if r.status ≥ 400 then .error ("HTTP error: " ++ toString r.status)
  else .ok ()

/-- The response-normalization block repeated in all four client methods
(for example server.py lines 75 to 81): raise_for_status, then json.loads
of the body text, and on a JSON decode failure the fallback object carrying
the raw text, returned as a normal (non-raising) result. The json.loads
library call is abstracted as the `parse` oracle. -/
def responseJson (parse : String → Option Json) (r : HttpResponse) :
    Except String Json :=
  match raise_for_status r with
  | .error e => .error e
  | .ok _ =>
    match parse r.body with
    | some j => .ok j
    | none => .ok (.obj
        [ ("error", .str "Invalid response format"),
          ("response", .str r.body) ])

/-- OpsbeaconClient.list_commands (server.py lines 70 to 84): issues GET
/workspace/v2/commands and normalizes the response; also returns the
request it made. -/
def list_commands (transport : Request → HttpResponse)
    (parse : String → Option Json) : Except String Json × Request :=
  let req := Request.getCommands
  (responseJson parse (transport req), req)

/-- OpsbeaconClient.list_connections (server.py lines 86 to 100): issues
GET /workspace/v2/connections and normalizes the response. -/
def list_connections (transport : Request → HttpResponse)
    (parse : String → Option Json) : Except String Json × Request :=
  let req := Request.getConnections
  (responseJson parse (transport req), req)

/-- OpsbeaconClient.get_execution_logs (server.py lines 102 to 125): issues
GET /workspace/v2/eventlogs with startDate, endDate, page, limit and the
constant orderBy=timestamp, direction=desc parameters, and normalizes the
response. -/
def get_execution_logs (transport : Request → HttpResponse)
    (parse : String → Option Json) (start_date end_date : Int)
    (page limit : Json) : Except String Json × Request :=
  let req := Request.getEventLogs start_date end_date page limit "timestamp" "desc"
  (responseJson parse (transport req), req)

/-- The command-line construction of OpsbeaconClient.execute_operation
(server.py lines 130 to 134): connection, a space, command, then for each
argument pair a space, two dashes, the name, a space and the value, in
input order, with no escaping, quoting or deduplication. `arguments` is
Optional; a None (and likewise an empty list, falsy in Python) adds
nothing. -/
def buildCommandLine (connection command : String)
    (arguments : Option (List (String × String))) : String :=
  let base := connection ++ " " ++ command
  match arguments with
  | none => base
  | some args =>
    args.foldl (fun acc p => acc ++ " --" ++ p.1 ++ " " ++ p.2) base

/-- OpsbeaconClient.execute_operation (server.py lines 127 to 153): builds
the command line, issues POST /trigger/v1/api with it, and normalizes the
response. -/
def execute_operation (transport : Request → HttpResponse)
    (parse : String → Option Json) (connection command : String)
    (arguments : Option (List (String × String))) :
    Except String Json × Request :=
  let req := Request.postExecute (buildCommandLine connection command arguments)
  (responseJson parse (transport req), req)

/-- An aiohttp ClientSession as seen by the client: an identity (so that
distinct channels created over time can be told apart) and its closed
flag. -/
structure Sess where
  id : Nat
  closed : Bool
deriving Repr, DecidableEq

/-- The session-lifecycle state of an OpsbeaconClient: the `session`
attribute (None initially), a counter supplying fresh channel identities,
the ghost list of channel objects the client has dropped its reference to
(for stating that closed channels are never reused), and the `inited`
flag mirroring the initialized attribute. -/
structure ClientState where
  session : Option Sess
  nextId : Nat
  retired : List Sess
  inited : Bool
deriving Repr, DecidableEq

/-- The state after OpsbeaconClient.__init__: no session. -/
def initState : ClientState :=
  { session := none, nextId := 0, retired := [], inited := false }

/-- Creation of a fresh aiohttp ClientSession overwriting the `session`
attribute; the previously held object (absent or closed whenever this is
reached) moves to the ghost `retired` list. -/
def mkFreshSession (st : ClientState) : ClientState × Sess :=
  let s : Sess := { id := st.nextId, closed := false }
  ({ st with
      session := some s
      nextId := st.nextId + 1
      retired := st.session.toList ++ st.retired }, s)

/-- OpsbeaconClient._get_session (server.py lines 58 to 68): if the session
is None or closed, a new one is created and stored; otherwise the existing
one is returned unchanged. -/
def get_session (st : ClientState) : ClientState × Sess :=
  match st.session with
  | some s => if s.closed then mkFreshSession st else (st, s)
  | none => mkFreshSession st

/-- OpsbeaconClient.close (server.py lines 155 to 159): if a session exists
and is not closed, it is closed and the initialized flag cleared; otherwise
nothing happens. The attribute keeps referencing the closed session. -/
def close (st : ClientState) : ClientState :=
  match st.session with
  | some s =>
    if s.closed then st
    else { st with session := some { s with closed := true }, inited := false }
  | none => st

/-- Whether the client currently holds a live (non-closed) channel. -/
def hasLive (st : ClientState) : Bool :=
  match st.session with
  | some s => !s.closed
  | none => false

/-- All channels the client ever created and has not closed: the held one
plus the ghost-retired ones, filtered to the non-closed. -/
def liveList (st : ClientState) : List Sess :=
  (st.session.toList ++ st.retired).filter (fun s => !s.closed)

/-- Number of live channels attributable to the client. -/
def liveCount (st : ClientState) : Nat :=
  (liveList st).length

/-- Invariant of the session lifecycle: every retired channel is closed,
channel identities are bounded by the freshness counter, and the held
channel (if any) differs from every retired one. -/
def SessInv (st : ClientState) : Prop :=
  (∀ s ∈ st.retired, s.closed = true)
  ∧ (∀ s ∈ st.retired, s.id < st.nextId)
  ∧ (∀ s, st.session = some s → s.id < st.nextId)
  ∧ (∀ s, st.session = some s → ∀ r ∈ st.retired, s.id ≠ r.id)

/-- The session-touching operations a caller can perform on the client:
acquiring the channel (as every request method does via _get_session) and
closing it. -/
inductive ClientOp where
  | acquire : ClientOp
  | release : ClientOp
deriving Repr, DecidableEq

/-- One step of the session lifecycle. -/
def stepOp (st : ClientState) : ClientOp → ClientState
  | .acquire => (get_session st).1
  | .release => close st

/-- The client state reached from construction after a sequence of
operations. -/
def runOps (ops : List ClientOp) : ClientState :=
  ops.foldl stepOp initState

/-- One text content item of a tool-call result: the text, and the optional
structured JSON artifact attached on success paths (the type field is the
constant "text" and is left implicit). -/
structure TextContent where
  text : String
  artifact : Option Json

/-- The artifact dict attached to successful results:
a type tag "json" and the data payload. -/
def mkArtifact (j : Json) : Json :=
  .obj [("type", .str "json"), ("data", j)]

/-- The list_commands branch of handle_call_tool (server.py lines 281 to
293): calls the client, wraps the value as text plus artifact, and wraps a
raised failure as error text. -/
def listCommandsBranch (transport : Request → HttpResponse)
    (parse : String → Option Json) : List TextContent × List Request :=
  match list_commands transport parse with
  | (.ok j, req) => ([{ text := j.render, artifact := some (mkArtifact j) }], [req])
  | (.error e, req) => ([{ text := "Error listing commands: " ++ e, artifact := none }], [req])

/-- The list_connections branch of handle_call_tool (server.py lines 295 to
307). -/
def listConnectionsBranch (transport : Request → HttpResponse)
    (parse : String → Option Json) : List TextContent × List Request :=
  match list_connections transport parse with
  | (.ok j, req) => ([{ text := j.render, artifact := some (mkArtifact j) }], [req])
  | (.error e, req) => ([{ text := "Error listing connections: " ++ e, artifact := none }], [req])

/-- An execute-branch failure caught by its `except` clause: error text,
no downstream request. -/
def execErr (msg : String) : List TextContent × List Request :=
  ([{ text := "Error executing operation: " ++ msg, artifact := none }], [])

/-- Conversion of one element of the caller-supplied arguments list,
modelling `(arg["name"], arg["value"])`; a missing key or a non-dict
element raises (KeyError or TypeError; the message text is approximated,
as nothing observable depends on it). The raw values are rendered by str()
at interpolation time, applied here. -/
def extractOne : Json → Except String (String × String)
  | .obj fields =>
    match getKey fields "name", getKey fields "value" with
    | some n, some v => .ok (pyToStr n, pyToStr v)
    | _, _ => .error "name or value key missing in argument"
  | _ => .error "argument item is not a mapping"

/-- Conversion of the caller-supplied arguments value to the tuple list
consumed by execute_operation (server.py line 322); a non-list value
raises. -/
def extractArgs : Json → Except String (List (String × String))
  | .arr items => items.mapM extractOne
  | _ => .error "arguments value is not a list"

/-- The execute branch of handle_call_tool (server.py lines 309 to 334):
an absent or empty argument mapping raises "Missing required arguments";
a missing or falsy connection or command raises "Both connection and
command are required"; otherwise the arguments list (when present and
truthy) is converted to tuples and execute_operation is invoked, its value
wrapped as text plus artifact and any failure as error text. -/
def executeBranch (transport : Request → HttpResponse)
    (parse : String → Option Json)
    (arguments : Option (List (String × Json))) :
    List TextContent × List Request :=
  match arguments with
  | none => execErr "Missing required arguments"
  | some args =>
    if args.isEmpty then execErr "Missing required arguments"
    else
      match getKey args "connection", getKey args "command" with
      | some cj, some mj =>
        if !(cj.truthy && mj.truthy) then
          execErr "Both connection and command are required"
        else
          let argListE : Except String (Option (List (String × String))) :=
            match getKey args "arguments" with
            | some av => if av.truthy then (extractArgs av).map some else .ok none
            | none => .ok none
          match argListE with
          | .error e => execErr e
          | .ok argList =>
            match execute_operation transport parse (pyToStr cj) (pyToStr mj) argList with
            | (.ok j, req) =>
              ([{ text := j.render, artifact := some (mkArtifact j) }], [req])
            | (.error e, req) =>
              ([{ text := "Error executing operation: " ++ e, artifact := none }], [req])
      | _, _ => execErr "Both connection and command are required"

/-- An executionlogs-branch failure caught by its `except` clause. -/
def logsErr (msg : String) : List TextContent × List Request :=
  ([{ text := "Error getting execution logs: " ++ msg, artifact := none }], [])

/-- The executionlogs branch of handle_call_tool (server.py lines 336 to
382): an absent or empty argument mapping, or one without an "interval"
key, raises "Missing required interval argument"; a non-string interval
raises at `.lower()` (message approximated); otherwise the interval is
resolved to a day delta and the start date computed — an OverflowError of
the date subtraction is caught only by the branch-level handler and becomes
error text with no downstream request — then page and limit default to 1
and 10 and get_execution_logs is invoked with the start date and
end = today. -/
def executionlogsBranch (transport : Request → HttpResponse)
    (parse : String → Option Json) (today : Int)
    (arguments : Option (List (String × Json))) :
    List TextContent × List Request :=
  match arguments with
  | none => logsErr "Missing required interval argument"
  | some args =>
    if args.isEmpty then logsErr "Missing required interval argument"
    else
      match getKey args "interval" with
      | none => logsErr "Missing required interval argument"
      | some (.str ivl) =>
        match resolveStartOrError today ivl with
        | .error e => logsErr e
        | .ok startD =>
          let page := (getKey args "page").getD (Json.num 1)
          let limit := (getKey args "limit").getD (Json.num 10)
          match get_execution_logs transport parse startD today page limit with
          | (.ok j, req) =>
            ([{ text := j.render, artifact := some (mkArtifact j) }], [req])
          | (.error e, req) =>
            ([{ text := "Error getting execution logs: " ++ e, artifact := none }], [req])
      | some _ => logsErr "interval value has no lower attribute"

/-- The dispatcher handle_call_tool (server.py lines 273 to 390): matches
the tool name against the four registered tools and otherwise produces the
unknown-tool text; returns the content items together with the downstream
requests issued. -/
def handle_call_tool (transport : Request → HttpResponse)
    (parse : String → Option Json) (today : Int) (name : String)
    (arguments : Option (List (String × Json))) :
    List TextContent × List Request :=
  if name = "list_commands" then listCommandsBranch transport parse
  else if name = "list_connections" then listConnectionsBranch transport parse
  else if name = "execute" then executeBranch transport parse arguments
  else if name = "executionlogs" then executionlogsBranch transport parse today arguments
  else ([{ text := "Unknown tool: " ++ name, artifact := none }], [])

/-- A transport whose every response is empty with status 200, used to
instantiate theorems at concrete inputs. -/
def trEmpty : Request → HttpResponse := fun _ => { status := 200, body := "" }

/-- A parse oracle that decodes nothing, used to instantiate theorems at
concrete inputs. -/
def parseNone : String → Option Json := fun _ => none

/-- Navigation into the input schema of the i-th registered tool along a
path of object keys. -/
def toolSchemaAt (i : Nat) (path : List String) : Option Json :=
  path.foldl (fun acc k => acc.bind (fun j => j.getField k))
    ((handle_list_tools.get? i).map Tool.inputSchema)

/-- The fallback object produced for a non-JSON downstream body. -/
def invalidFormat (text : String) : Json :=
  .obj [("error", .str "Invalid response format"), ("response", .str text)]

end Opsbeacon

namespace Opsbeacon

/-- The command-line fold, written as the base followed by the joined
per-argument fragments. -/
theorem cmdline_foldl_join (args : List (String × String)) (base : String) :
    args.foldl (fun acc p => acc ++ " --" ++ p.1 ++ " " ++ p.2) base
      = base ++ String.join (args.map (fun p => " --" ++ p.1 ++ " " ++ p.2)) := by
  induction args generalizing base with
  | nil => simp [String.join]
  | cons a l ih =>
    simp only [List.foldl_cons, List.map_cons, ih]
    apply String.ext
    simp [String.join_eq, List.flatten]

/-- C4: for every connection string, command string and ordered list of
(name, value) pairs, execute_operation builds the downstream command line
as the connection, a space, the command, then for each pair in input order
the fragment of a space, two dashes, the name, a space and the value, with
no escaping and no deduplication; in particular db1 / run /
[(x, 1), (y, 2)] yields the string db1 run --x 1 --y 2. -/
theorem C4_command_line :
    (∀ (c m : String) (args : List (String × String)),
      buildCommandLine c m (some args)
        = c ++ " " ++ m ++ String.join (args.map (fun p => " --" ++ p.1 ++ " " ++ p.2)))
    ∧ buildCommandLine "db1" "run" (some [("x", "1"), ("y", "2")]) = "db1 run --x 1 --y 2" := by
  refine ⟨fun c m args => ?_, rfl⟩
  simp [buildCommandLine, cmdline_foldl_join]

/-- C7: a tool-call request whose name is none of the four registered tool
names produces a result whose sole content item is the text
"Unknown tool: " followed by the name, with no downstream request. -/
theorem C7_unknown_tool (transport : Request → HttpResponse)
    (parse : String → Option Json) (today : Int) (name : String)
    (arguments : Option (List (String × Json)))
    (h1 : name ≠ "list_commands") (h2 : name ≠ "list_connections")
    (h3 : name ≠ "execute") (h4 : name ≠ "executionlogs") :
    handle_call_tool transport parse today name arguments
      = ([{ text := "Unknown tool: " ++ name, artifact := none }], []) := by
  simp [handle_call_tool, h1, h2, h3, h4]

/-- Witness for C7 at the concrete unregistered name foo. -/
theorem C7_witness :
    handle_call_tool trEmpty parseNone 0 "foo" none
      = ([{ text := "Unknown tool: " ++ "foo", artifact := none }], []) :=
  C7_unknown_tool trEmpty parseNone 0 "foo" none
    (by decide) (by decide) (by decide) (by decide)

/-- C6: whenever the downstream body fails to decode as JSON (and the
status is not an HTTP error), each of the four client operations returns
the fallback object with the error tag "Invalid response format" and the
raw body text, as a successful non-raising result. -/
theorem C6_invalid_json (status : Nat) (text : String)
    (parse : String → Option Json) (sd ed : Int) (page limit : Json)
    (conn cmd : String) (args : Option (List (String × String)))
    (hs : status < 400) (hp : parse text = none) :
    (list_commands (fun _ => { status := status, body := text }) parse).1
        = .ok (invalidFormat text)
    ∧ (list_connections (fun _ => { status := status, body := text }) parse).1
        = .ok (invalidFormat text)
    ∧ (get_execution_logs (fun _ => { status := status, body := text }) parse sd ed page limit).1
        = .ok (invalidFormat text)
    ∧ (execute_operation (fun _ => { status := status, body := text }) parse conn cmd args).1
        = .ok (invalidFormat text) := by
  have hns : ¬ status ≥ 400 := Nat.not_le.2 hs
  refine ⟨?_, ?_, ?_, ?_⟩ <;>
    simp [list_commands, list_connections, get_execution_logs, execute_operation,
      responseJson, raise_for_status, hns, hp, invalidFormat]

/-- Witness for C6 at status 200 and the body text "not json". -/
theorem C6_witness :
    (list_commands (fun _ => { status := 200, body := "not json" }) parseNone).1
      = .ok (invalidFormat "not json") :=
  (C6_invalid_json 200 "not json" parseNone 0 0 (.num 1) (.num 10) "c" "m" none
    (by decide) rfl).1

/-- C2 counterexample: on the literal phrase today the resolver yields
start = today minus 7 and end = today, not start = end = today, and on the
literal phrase yesterday it yields the same default rather than start =
end = today minus 1 (shown at day index 0). -/
theorem C2_counterexample :
    resolveTimeframe 0 "today" = (-7, 0)
    ∧ resolveTimeframe 0 "yesterday" = (-7, 0)
    ∧ ((-7 : Int) ≠ 0) ∧ ((-7 : Int) ≠ -1) := by
  decide

/-- C2 amended: the resolver maps the phrase last week to start = today
minus 7 days and end = today, while the phrases today and yesterday are not
special-cased and fall through to the same default window start = today
minus 7 days, end = today. -/
theorem C2_amended (today : Int) :
    resolveTimeframe today "today" = (today - 7, today)
    ∧ resolveTimeframe today "yesterday" = (today - 7, today)
    ∧ resolveTimeframe today "last week" = (today - 7, today) := by
  refine ⟨?_, ?_, ?_⟩ <;>
    simp [resolveTimeframe,
      show resolveStartDelta "today" = 7 from rfl,
      show resolveStartDelta "yesterday" = 7 from rfl,
      show resolveStartDelta "last week" = 7 from rfl]

/-- C3 counterexample: the input last month is not one of the three literal
phrases, yet the resolver yields start = today minus 30 days rather than
the default today minus 7 (shown at day index 0). -/
theorem C3_counterexample :
    resolveTimeframe 0 "last month" = (-30, 0) ∧ ((-30 : Int) ≠ -7) := by
  decide

/-- C3 amended: every input whose lowercased form contains none of the
substrings last week, last month, and the pair last together with days,
resolves to the default window start = today minus 7 days, end = today;
the resolver is a total function and signals no failure on any string. -/
theorem C3_amended (today : Int) (s : String)
    (h1 : strHas (pyLower s) "last week" = false)
    (h2 : strHas (pyLower s) "last month" = false)
    (h3 : (strHas (pyLower s) "last" && strHas (pyLower s) "days") = false) :
    resolveTimeframe today s = (today - 7, today) := by
  simp [resolveTimeframe, resolveStartDelta, h1, h2, h3]

/-- Witness for C3 at the concrete input banana. -/
theorem C3_witness : resolveTimeframe 0 "banana" = (0 - 7, 0) :=
  C3_amended 0 "banana" (by decide) (by decide) (by decide)

/-- The digit-accumulation fold computes the base-10 value of the digit
list (most significant first), stated via Nat.ofDigits on the reversed
least-significant-first list. -/
theorem foldl_digits_ofDigits (l : List Nat) (a : Nat) :
    l.foldl (fun acc d => acc * 10 + d) a
      = Nat.ofDigits 10 l.reverse + a * 10 ^ l.length := by
  induction l generalizing a with
  | nil => simp [Nat.ofDigits]
  | cons d t ih =>
    simp only [List.foldl_cons, ih, List.reverse_cons, List.length_cons]
    rw [Nat.ofDigits_append]
    simp [Nat.ofDigits]
    ring

/-- The digit fold over characters equals the base-10 value of the mapped
digit list. -/
theorem charFoldl_ofDigits (l : List Char) :
    l.foldl (fun acc c => acc * 10 + (c.toNat - 48)) 0
      = Nat.ofDigits 10 ((l.map (fun c => c.toNat - 48)).reverse) := by
  rw [show (fun acc c => acc * 10 + (Char.toNat c - 48))
        = fun acc c => (fun a d => a * 10 + d) acc ((fun c : Char => c.toNat - 48) c) from rfl,
    ← List.foldl_map, foldl_digits_ofDigits]
  simp

/-- Closed form of digitsOrSeven: 7 when the string holds no digit
character or more than 4300 of them (the two int ValueError cases),
otherwise the base-10 value of its digit characters in order. -/
theorem digitsOrSeven_eq (t : String) :
    digitsOrSeven t
      = if (t.data.filter Char.isDigit) = [] then 7
        else if 4300 < (t.data.filter Char.isDigit).length then 7
        else Nat.ofDigits 10
          (((t.data.filter Char.isDigit).map (fun c => c.toNat - 48)).reverse) := by
  cases hds : t.data.filter Char.isDigit with
  | nil => simp [digitsOrSeven, hds]
  | cons c cs =>
    rcases Decidable.em (4300 < cs.length + 1) with hlen | hlen
    · simp [digitsOrSeven, hds, hlen]
    · have h0 : digitsOrSeven t
          = (c :: cs).foldl (fun acc c => acc * 10 + (c.toNat - 48)) 0 := by
        simp [digitsOrSeven, hds, hlen]
      rw [h0, charFoldl_ofDigits]
      simp [hds, hlen]

/-- C10 counterexample: an interval containing both last week and last
month resolves to 7 days, not the 30 days the claim requires for every
string containing last month. -/
theorem C10_counterexample :
    resolveStartDelta "last week and last month" = 7 ∧ (7 : Nat) ≠ 30 := by
  decide

/-- C10 amended: after lowercasing, an interval containing last month but
not last week selects a day count of 30; one containing last and days but
neither last week nor last month selects the number formed by its digit
characters in order, falling back to 7 when it has no digits or more than
4300 of them (where int raises ValueError); the digit value is
characterized independently through Nat.ofDigits. The start date is the
current date minus the selected day count only when that subtraction stays
within the datetime range: when the result would fall before the minimum
date (and the count is within the timedelta bound), the subtraction raises
OverflowError, which the except ValueError handler does not catch — the
dispatcher then returns the error text "Error getting execution logs: date
value out of range" and makes no downstream request. -/
theorem C10_amended (s : String) :
    (strHas (pyLower s) "last week" = false →
      strHas (pyLower s) "last month" = true →
      resolveStartDelta s = 30)
    ∧ (strHas (pyLower s) "last week" = false →
      strHas (pyLower s) "last month" = false →
      strHas (pyLower s) "last" = true →
      strHas (pyLower s) "days" = true →
      resolveStartDelta s = digitsOrSeven (pyLower s))
    ∧ (digitsOrSeven (pyLower s)
        = if ((pyLower s).data.filter Char.isDigit) = [] then 7
          else if 4300 < ((pyLower s).data.filter Char.isDigit).length then 7
          else Nat.ofDigits 10
            ((((pyLower s).data.filter Char.isDigit).map (fun c => c.toNat - 48)).reverse))
    ∧ (∀ today : Int, resolveStartDelta s ≤ 999999999 →
        1 ≤ today - (resolveStartDelta s : Int) →
        resolveStartOrError today s = .ok (today - (resolveStartDelta s : Int)))
    ∧ (∀ today : Int, resolveStartDelta s ≤ 999999999 →
        today - (resolveStartDelta s : Int) < 1 →
        resolveStartOrError today s = .error "date value out of range")
    ∧ (∀ (today : Int) (transport : Request → HttpResponse)
        (parse : String → Option Json) (args : List (String × Json)),
        args ≠ [] → getKey args "interval" = some (.str s) →
        resolveStartDelta s ≤ 999999999 →
        today - (resolveStartDelta s : Int) < 1 →
        handle_call_tool transport parse today "executionlogs" (some args)
          = ([{ text := "Error getting execution logs: date value out of range",
                artifact := none }], [])) := by
  refine ⟨fun h1 h2 => ?_, fun h1 h2 h3 h4 => ?_, digitsOrSeven_eq (pyLower s),
    fun today hd hin => ?_, fun today hd hov => ?_,
    fun today transport parse args hne hk hd hov => ?_⟩
  · simp [resolveStartDelta, h1, h2]
  · simp [resolveStartDelta, h1, h2, h3, h4]
  · simp [resolveStartOrError, dateMinusDays, Nat.not_lt.2 hd, Int.not_lt.2 hin]
  · simp [resolveStartOrError, dateMinusDays, Nat.not_lt.2 hd, hov]
  · have hE : args.isEmpty = false := by
      cases args with
      | nil => exact absurd rfl hne
      | cons a t => rfl
    have hres : resolveStartOrError today s = .error "date value out of range" := by
      simp [resolveStartOrError, dateMinusDays, Nat.not_lt.2 hd, hov]
    simp [handle_call_tool, executionlogsBranch, hE, hk, hres, logsErr]

/-- Witness for C10 at the concrete inputs last month, last 3 days, and
the overflowing last 999999 days at the day ordinal of a present-day
date. -/
theorem C10_witness :
    resolveStartDelta "last month" = 30
    ∧ resolveStartDelta "last 3 days" = 3
    ∧ handle_call_tool trEmpty parseNone 739000 "executionlogs"
        (some [("interval", Json.str "last 999999 days")])
      = ([{ text := "Error getting execution logs: date value out of range",
            artifact := none }], []) :=
  ⟨(C10_amended "last month").1 (by decide) (by decide),
   ((C10_amended "last 3 days").2.1 (by decide) (by decide) (by decide) (by decide)).trans
     (by decide),
   (C10_amended "last 999999 days").2.2.2.2.2 739000 trEmpty parseNone
     [("interval", Json.str "last 999999 days")]
     (List.cons_ne_nil _ _) rfl (by decide) (by decide)⟩

/-- C5 counterexample: calling execute with the argument mapping entirely
absent is a call in which connection is missing, yet the produced text is
Error executing operation: Missing required arguments — it does not carry
the message Both connection and command are required (no downstream
request is made). -/
theorem C5_counterexample :
    (handle_call_tool trEmpty parseNone 0 "execute" none
      = ([{ text := "Error executing operation: Missing required arguments",
            artifact := none }], []))
    ∧ strHas "Error executing operation: Missing required arguments"
        "Both connection and command are required" = false :=
  ⟨rfl, by decide⟩

/-- C5 amended: when the argument mapping is absent or empty the execute
branch produces the text Error executing operation: Missing required
arguments; when the mapping is non-empty but connection or command is
missing or falsy it produces the text Error executing operation: Both
connection and command are required; in every such case no downstream
request is made. -/
theorem C5_amended (transport : Request → HttpResponse)
    (parse : String → Option Json) (today : Int) :
    (handle_call_tool transport parse today "execute" none
      = ([{ text := "Error executing operation: Missing required arguments",
            artifact := none }], []))
    ∧ (handle_call_tool transport parse today "execute" (some [])
      = ([{ text := "Error executing operation: Missing required arguments",
            artifact := none }], []))
    ∧ (∀ args : List (String × Json), args ≠ [] →
        (optTruthy (getKey args "connection") = false
          ∨ optTruthy (getKey args "command") = false) →
        handle_call_tool transport parse today "execute" (some args)
          = ([{ text := "Error executing operation: Both connection and command are required",
                artifact := none }], [])) := by
  refine ⟨rfl, rfl, fun args hne hfalsy => ?_⟩
  have hE : args.isEmpty = false := by
    cases args with
    | nil => exact absurd rfl hne
    | cons a t => rfl
  simp only [handle_call_tool, reduceIte, executeBranch, hE, Bool.false_eq_true, if_false]
  cases hc : getKey args "connection" with
  | none => simp [execErr]
  | some cj =>
    cases hm : getKey args "command" with
    | none => simp [execErr]
    | some mj =>
      rcases hfalsy with hf | hf
      · rw [hc] at hf
        simp only [optTruthy] at hf
        simp [hf, execErr]
      · rw [hm] at hf
        simp only [optTruthy] at hf
        simp [hf, execErr]

/-- Witness for C5 at the concrete call with connection bound to the empty
string. -/
theorem C5_witness :
    handle_call_tool trEmpty parseNone 0 "execute"
        (some [("connection", Json.str "")])
      = ([{ text := "Error executing operation: Both connection and command are required",
            artifact := none }], []) :=
  (C5_amended trEmpty parseNone 0).2.2 [("connection", Json.str "")]
    (List.cons_ne_nil _ _) (Or.inl rfl)

/-- C1 counterexample: the executionlogs tool definition declares no
property named timeframe — its required field is named interval — and the
dispatcher validates an executionlogs call by the presence of interval, so
a call supplying only timeframe is rejected as missing the interval
argument. -/
theorem C1_counterexample :
    toolSchemaAt 3 ["properties", "timeframe"] = none
    ∧ toolSchemaAt 3 ["required"] = some (.arr [.str "interval"])
    ∧ (handle_call_tool trEmpty parseNone 0 "executionlogs"
        (some [("timeframe", Json.str "today")])).1
      = [{ text := "Error getting execution logs: Missing required interval argument",
           artifact := none }] :=
  ⟨rfl, rfl, rfl⟩

/-- C1 amended: capability advertisement returns exactly four tool
definitions named list_commands, list_connections, execute and
executionlogs; the executionlogs definition declares a required string
field named interval with optional integer fields page (default 1) and
limit (default 10); and the dispatcher requires that same interval field
to be present on an executionlogs call, producing the missing-argument
error text and no downstream request when it is absent. -/
theorem C1_registry :
    handle_list_tools.map Tool.name
        = ["list_commands", "list_connections", "execute", "executionlogs"]
    ∧ toolSchemaAt 3 ["required"] = some (.arr [.str "interval"])
    ∧ toolSchemaAt 3 ["properties", "interval", "type"] = some (.str "string")
    ∧ toolSchemaAt 3 ["properties", "page", "type"] = some (.str "integer")
    ∧ toolSchemaAt 3 ["properties", "page", "default"] = some (.num 1)
    ∧ toolSchemaAt 3 ["properties", "limit", "type"] = some (.str "integer")
    ∧ toolSchemaAt 3 ["properties", "limit", "default"] = some (.num 10)
    ∧ (∀ (transport : Request → HttpResponse) (parse : String → Option Json)
        (today : Int) (arguments : Option (List (String × Json))),
        (∀ l, arguments = some l → getKey l "interval" = none) →
        handle_call_tool transport parse today "executionlogs" arguments
          = ([{ text := "Error getting execution logs: Missing required interval argument",
                artifact := none }], [])) := by
  refine ⟨rfl, rfl, rfl, rfl, rfl, rfl, rfl,
    fun transport parse today arguments h => ?_⟩
  cases arguments with
  | none => rfl
  | some l =>
    have hk : getKey l "interval" = none := h l rfl
    simp only [handle_call_tool, reduceIte, executionlogsBranch, hk]
    cases hE : l.isEmpty <;> simp [logsErr]

/-- Witness for C1 at the concrete executionlogs call with no argument
mapping. -/
theorem C1_witness :
    handle_call_tool trEmpty parseNone 0 "executionlogs" none
      = ([{ text := "Error getting execution logs: Missing required interval argument",
            artifact := none }], []) :=
  C1_registry.2.2.2.2.2.2.2 trEmpty parseNone 0 none (fun _ h => nomatch h)

/-- C8 counterexample: closing twice from a state holding an open channel
raises nothing, but it does not leave the session attribute absent — the
attribute still references the now-closed channel object. -/
theorem C8_counterexample :
    close (close { session := some { id := 0, closed := false },
                   nextId := 1, retired := [], inited := true })
      = { session := some { id := 0, closed := true },
          nextId := 1, retired := [], inited := false }
    ∧ (close (close { session := some { id := 0, closed := false },
                      nextId := 1, retired := [], inited := true })).session ≠ none := by
  decide

/-- C8 amended: close is idempotent — on a client whose channel is absent
or already closed it is a no-op, and a second close in succession changes
nothing and raises nothing; after close no live channel is held, though
the session attribute keeps referencing the closed channel object rather
than becoming absent. -/
theorem C8_close_idempotent (st : ClientState) :
    (st.session = none → close st = st)
    ∧ (∀ s, st.session = some s → s.closed = true → close st = st)
    ∧ close (close st) = close st
    ∧ hasLive (close st) = false := by
  refine ⟨fun h => ?_, fun s hs hc => ?_, ?_, ?_⟩
  · simp [close, h]
  · simp [close, hs, hc]
  · cases hs : st.session with
    | none => simp [close, hs]
    | some s =>
      cases hc : s.closed with
      | true => simp [close, hs, hc]
      | false => simp [close, hs, hc]
  · cases hs : st.session with
    | none => simp [close, hasLive, hs]
    | some s =>
      cases hc : s.closed with
      | true => simp [close, hasLive, hs, hc]
      | false => simp [close, hasLive, hs, hc]

/-- Witness for C8 at the concrete state holding an already-closed
channel. -/
theorem C8_witness :
    close { session := some { id := 0, closed := true },
            nextId := 1, retired := [], inited := false }
      = { session := some { id := 0, closed := true },
          nextId := 1, retired := [], inited := false } :=
  (C8_close_idempotent _).2.1 { id := 0, closed := true } rfl rfl

/-- The lifecycle invariant holds after construction. -/
theorem sessInv_init : SessInv initState := by
  refine ⟨?_, ?_, ?_, ?_⟩ <;> simp [initState]

/-- The lifecycle invariant is preserved by _get_session. -/
theorem sessInv_get (st : ClientState) (h : SessInv st) :
    SessInv (get_session st).1 := by
  obtain ⟨hcl, hlt, hsid, hdist⟩ := h
  cases hs : st.session with
  | none =>
    simp only [get_session, mkFreshSession, hs, Option.toList_none, List.nil_append]
    refine ⟨hcl, fun r hr => Nat.lt_succ_of_lt (hlt r hr), ?_, ?_⟩
    · intro s2 hs2
      cases Option.some.inj hs2
      exact Nat.lt_succ_self _
    · intro s2 hs2 r hr
      cases Option.some.inj hs2
      exact Nat.ne_of_gt (hlt r hr)
  | some s =>
    cases hc : s.closed with
    | false =>
      simp only [get_session, hs, hc, Bool.false_eq_true, if_false]
      exact ⟨hcl, hlt, hsid, hdist⟩
    | true =>
      simp only [get_session, hs, hc, if_true, mkFreshSession, Option.toList_some,
        List.singleton_append]
      refine ⟨?_, ?_, ?_, ?_⟩
      · intro r hr
        rcases List.mem_cons.1 hr with rfl | hr2
        · exact hc
        · exact hcl r hr2
      · intro r hr
        rcases List.mem_cons.1 hr with rfl | hr2
        · exact Nat.lt_succ_of_lt (hsid _ hs)
        · exact Nat.lt_succ_of_lt (hlt r hr2)
      · intro s2 hs2
        cases Option.some.inj hs2
        exact Nat.lt_succ_self _
      · intro s2 hs2 r hr
        cases Option.some.inj hs2
        rcases List.mem_cons.1 hr with rfl | hr2
        · exact Nat.ne_of_gt (hsid _ hs)
        · exact Nat.ne_of_gt (hlt r hr2)

/-- The lifecycle invariant is preserved by close. -/
theorem sessInv_close (st : ClientState) (h : SessInv st) :
    SessInv (close st) := by
  obtain ⟨hcl, hlt, hsid, hdist⟩ := h
  cases hs : st.session with
  | none => simpa [close, hs] using ⟨hcl, hlt, hsid, hdist⟩
  | some s =>
    cases hc : s.closed with
    | true => simpa [close, hs, hc] using ⟨hcl, hlt, hsid, hdist⟩
    | false =>
      simp only [close, hs, hc, Bool.false_eq_true, if_false]
      refine ⟨hcl, hlt, ?_, ?_⟩
      · intro s2 hs2
        cases Option.some.inj hs2
        exact hsid s hs
      · intro s2 hs2 r hr
        cases Option.some.inj hs2
        exact hdist s hs r hr

/-- The lifecycle invariant holds after any operation sequence. -/
theorem sessInv_run (ops : List ClientOp) : SessInv (runOps ops) := by
  have aux : ∀ (l : List ClientOp) (st : ClientState), SessInv st →
      SessInv (l.foldl stepOp st) := by
    intro l
    induction l with
    | nil => intro st h; exact h
    | cons o t ih =>
      intro st h
      cases o with
      | acquire => exact ih _ (sessInv_get st h)
      | release => exact ih _ (sessInv_close st h)
  exact aux ops initState sessInv_init

/-- Under the invariant the client accounts for at most one live
channel. -/
theorem liveCount_le_one (st : ClientState) (h : SessInv st) :
    liveCount st ≤ 1 := by
  obtain ⟨hcl, -, -, -⟩ := h
  have hret : st.retired.filter (fun s => !s.closed) = [] := by
    apply List.filter_eq_nil_iff.2
    intro r hr
    simp [hcl r hr]
  cases hs : st.session with
  | none => simp [liveCount, liveList, hs, hret]
  | some s =>
    cases hc : s.closed with
    | true => simp [liveCount, liveList, hs, hc, hret]
    | false => simp [liveCount, liveList, hs, hc, hret]

/-- C9: along every sequence of acquire and close operations from
construction, the client accounts for at most one live channel (before and
after acquiring); the lazy accessor _get_session always hands out a
non-closed channel; it returns the held channel unchanged exactly when one
exists and is not closed, and otherwise creates a channel with the fresh
identity; and the channel it hands out is never one of the retired
(closed and dropped) channels. -/
theorem C9_session_lifecycle (ops : List ClientOp) :
    liveCount (runOps ops) ≤ 1
    ∧ liveCount (get_session (runOps ops)).1 ≤ 1
    ∧ (get_session (runOps ops)).2.closed = false
    ∧ (∀ s, (runOps ops).session = some s → s.closed = false →
        get_session (runOps ops) = ((runOps ops), s))
    ∧ (((runOps ops).session = none
        ∨ ∃ s, (runOps ops).session = some s ∧ s.closed = true) →
        (get_session (runOps ops)).2.id = (runOps ops).nextId)
    ∧ (∀ r ∈ (runOps ops).retired, (get_session (runOps ops)).2.id ≠ r.id) := by
  have hInv := sessInv_run ops
  obtain ⟨hcl, hlt, hsid, hdist⟩ := hInv
  refine ⟨liveCount_le_one _ (sessInv_run ops),
    liveCount_le_one _ (sessInv_get _ (sessInv_run ops)), ?_, ?_, ?_, ?_⟩
  · cases hs : (runOps ops).session with
    | none => simp [get_session, mkFreshSession, hs]
    | some s =>
      cases hc : s.closed with
      | true => simp [get_session, mkFreshSession, hs, hc]
      | false => simp [get_session, hs, hc]
  · intro s hs hc
    simp [get_session, hs, hc]
  · intro h
    rcases h with hs | ⟨s, hs, hc⟩
    · simp [get_session, mkFreshSession, hs]
    · simp [get_session, mkFreshSession, hs, hc]
  · intro r hr
    cases hs : (runOps ops).session with
    | none =>
      simp only [get_session, mkFreshSession, hs]
      exact Nat.ne_of_gt (hlt r hr)
    | some s =>
      cases hc : s.closed with
      | true =>
        simp only [get_session, mkFreshSession, hs, hc, if_true]
        exact Nat.ne_of_gt (hlt r hr)
      | false =>
        simp only [get_session, hs, hc, Bool.false_eq_true, if_false]
        exact hdist s hs r hr

/-- Witness for C9 along the concrete operation sequence acquire then
close: at most one live channel remains, and acquiring from the closed
state hands out the fresh identity. -/
theorem C9_witness :
    liveCount (runOps [ClientOp.acquire, ClientOp.release]) ≤ 1
    ∧ (get_session (runOps [ClientOp.acquire, ClientOp.release])).2.id
        = (runOps [ClientOp.acquire, ClientOp.release]).nextId :=
  ⟨(C9_session_lifecycle [ClientOp.acquire, ClientOp.release]).1,
   (C9_session_lifecycle [ClientOp.acquire, ClientOp.release]).2.2.2.2.1
     (Or.inr ⟨{ id := 0, closed := true }, rfl, rfl⟩)⟩

end Opsbeacon
